import Mathlib

/-!
Verification of the task-parsing and project-building logic of the
todo-test-tracker repository (src/task_parser.py, src/project_builder.py,
src/openrouter_client.py), via a shallow embedding of the relevant Python
functions into Lean.

Modelling conventions:
* Python's dynamically typed values are embedded as `PyVal` (a mutual
  inductive so that all functions are structurally recursive and reduce
  by `rfl`).
* Machine-level Python behaviours are modelled on their commonly exercised
  domain: `str.lower()` and `str.title()` are modelled on ASCII letters,
  `str.strip()` on the six ASCII whitespace characters, `repr()` of strings
  without the quote-escaping rules.  No claim below depends on the
  unmodelled corners.
* Python code that can raise is embedded with `Option`/`Except`; a `none`
  or `.error` result models a raised exception.
-/

mutual

/-- Embedded Python value.  `pyList`/`pyDict` use the mutually inductive
list types `PyItems`/`PyPairs` so that recursion over nested values is
structural. -/
inductive PyVal where
  | pyNone
  | pyBool (b : Bool)
  | pyInt (n : Int)
  | pyStr (s : String)
  | pyList (xs : PyItems)
  | pyDict (kvs : PyPairs)
deriving Repr

/-- Elements of an embedded Python list. -/
inductive PyItems where
  | nil
  | cons (v : PyVal) (rest : PyItems)
deriving Repr

/-- Key/value pairs of an embedded Python dict with string keys (the only
kind of dict produced by decoding JSON), in insertion order. -/
inductive PyPairs where
  | nil
  | cons (k : String) (v : PyVal) (rest : PyPairs)
deriving Repr

end

/-- Convert an embedded Python list to a Lean list of values. -/
def PyItems.toList : PyItems → List PyVal
  | .nil => []
  | .cons v rest => v :: rest.toList

/-- Build an embedded Python list from a Lean list of values. -/
def PyItems.ofList : List PyVal → PyItems
  | [] => .nil
  | v :: rest => .cons v (PyItems.ofList rest)

/-- Keys of an embedded dict, in insertion order. -/
def PyPairs.keys : PyPairs → List String
  | .nil => []
  | .cons k _ rest => k :: rest.keys

/-- Build an embedded dict from a Lean association list. -/
def PyPairs.ofList : List (String × PyVal) → PyPairs
  | [] => .nil
  | (k, v) :: rest => .cons k v (PyPairs.ofList rest)

/-- Python `d[k]` / `k in d`: first binding of key `k` (dict keys are
unique in every dict produced by JSON decoding, so first = only). -/
def lookupKey : PyPairs → String → Option PyVal
  | .nil, _ => none
  | .cons k v rest, key => if k = key then some v else lookupKey rest key

/-- Python `d.get(k, dflt)`. -/
def pyGet (kvs : PyPairs) (key : String) (dflt : PyVal) : PyVal :=
  (lookupKey kvs key).getD dflt

/-- Python `d[k] = v`: replaces the binding in place if the key exists
(keeping its position, as Python dicts do), otherwise appends it. -/
def setKey : PyPairs → String → PyVal → PyPairs
  | .nil, key, v => .cons key v .nil
  | .cons k w rest, key, v =>
      if k = key then .cons key v rest else .cons k w (setKey rest key v)

/-- Python truthiness (`bool(v)`) for the embedded values. -/
def pyTruthy : PyVal → Bool
  | .pyNone => false
  | .pyBool b => b
  | .pyInt n => n != 0
  | .pyStr s => s != ""
  | .pyList .nil => false
  | .pyList _ => true
  | .pyDict .nil => false
  | .pyDict _ => true

mutual

/-- Python `repr(v)` for embedded values.  String quoting is modelled
as a plain single-quote wrapping (Python's quote-choice and escaping
rules for exotic strings are not modelled; no claim depends on them). -/
def pyReprOf : PyVal → String
  | .pyNone => "None"
  | .pyBool true => "True"
  | .pyBool false => "False"
  | .pyInt n => toString n
  | .pyStr s => "\x27" ++ s ++ "\x27"
  | .pyList xs => "[" ++ String.intercalate ", " (pyReprItems xs) ++ "]"
  | .pyDict kvs => "\x7b" ++ String.intercalate ", " (pyReprPairs kvs) ++ "\x7d"

/-- Element reprs of a Python list. -/
def pyReprItems : PyItems → List String
  | .nil => []
  | .cons v rest => pyReprOf v :: pyReprItems rest

/-- Entry reprs of a Python dict. -/
def pyReprPairs : PyPairs → List String
  | .nil => []
  | .cons k v rest => ("\x27" ++ k ++ "\x27: " ++ pyReprOf v) :: pyReprPairs rest

end

/-- Python `str(v)`: the identity on strings, `repr` otherwise (which for
the remaining embedded values agrees with Python's `str`). -/
def pyStrOf : PyVal → String
  | .pyStr s => s
  | v => pyReprOf v

/-- The whitespace stripped by Python's `str.strip()` (ASCII part). -/
def isPySpace (c : Char) : Bool :=
  c == ' ' || c == '\t' || c == '\n' || c == '\r' || c == '\x0b' || c == '\x0c'

/-- Python `str.strip()` on a character list. -/
def pyStripL (l : List Char) : List Char :=
  ((l.dropWhile isPySpace).reverse.dropWhile isPySpace).reverse

/-- Python `str.strip()`. -/
def pyStrip (s : String) : String := String.mk (pyStripL s.toList)

/-- ASCII lowercasing of one character, by explicit table so that facts
such as `pyLowerChar c = h → c = h` for non-letters are provable by case
split. -/
def pyLowerChar (c : Char) : Char :=
  match c with
  | 'A' => 'a' | 'B' => 'b' | 'C' => 'c' | 'D' => 'd' | 'E' => 'e' | 'F' => 'f'
  | 'G' => 'g' | 'H' => 'h' | 'I' => 'i' | 'J' => 'j' | 'K' => 'k' | 'L' => 'l'
  | 'M' => 'm' | 'N' => 'n' | 'O' => 'o' | 'P' => 'p' | 'Q' => 'q' | 'R' => 'r'
  | 'S' => 's' | 'T' => 't' | 'U' => 'u' | 'V' => 'v' | 'W' => 'w' | 'X' => 'x'
  | 'Y' => 'y' | 'Z' => 'z'
  | c => c

/-- ASCII uppercasing of one character. -/
def pyUpperChar (c : Char) : Char :=
  match c with
  | 'a' => 'A' | 'b' => 'B' | 'c' => 'C' | 'd' => 'D' | 'e' => 'E' | 'f' => 'F'
  | 'g' => 'G' | 'h' => 'H' | 'i' => 'I' | 'j' => 'J' | 'k' => 'K' | 'l' => 'L'
  | 'm' => 'M' | 'n' => 'N' | 'o' => 'O' | 'p' => 'P' | 'q' => 'Q' | 'r' => 'R'
  | 's' => 'S' | 't' => 'T' | 'u' => 'U' | 'v' => 'V' | 'w' => 'W' | 'x' => 'X'
  | 'y' => 'Y' | 'z' => 'Z'
  | c => c

/-- Python `str.lower()` (ASCII model). -/
def pyLower (s : String) : String := String.mk (s.toList.map pyLowerChar)

/-- ASCII letter test. -/
def isAsciiAlpha (c : Char) : Bool :=
  ('a' ≤ c && c ≤ 'z') || ('A' ≤ c && c ≤ 'Z')

/-- Python `str.title()` (ASCII model): the first letter of each run of
letters is uppercased, the following letters lowercased. -/
def pyTitleL (prevAlpha : Bool) : List Char → List Char
  | [] => []
  | c :: rest =>
      (if isAsciiAlpha c then (if prevAlpha then pyLowerChar c else pyUpperChar c) else c)
        :: pyTitleL (isAsciiAlpha c) rest

/-- Python `str.title()`. -/
def pyTitle (s : String) : String := String.mk (pyTitleL false s.toList)

/-- Python slice `s[:n]`. -/
def strTake (s : String) (n : Nat) : String := String.mk (s.toList.take n)

/-- Python iteration `for x in v`: lists yield their elements, strings
their one-character substrings, dicts their keys; other values raise
`TypeError` (modelled as `none`). -/
def iterAsList : PyVal → Option (List PyVal)
  | .pyList xs => some xs.toList
  | .pyStr s => some (s.toList.map (fun c => .pyStr (String.mk [c])))
  | .pyDict kvs => some (kvs.keys.map .pyStr)
  | _ => none

/-! ## task_parser.py -/

/-- Source: `TaskParser._validate_priority`, the allowed priorities. -/
def valid_priorities : List String := ["high", "medium", "low"]

/-- Source: `TaskParser._validate_effort`, the allowed effort estimates. -/
def valid_efforts : List String := ["1-day", "3-days", "1-week", "2-weeks"]

/-- Source: `TaskParser._validate_task_type`, the allowed task types. -/
def valid_types : List String :=
  ["feature", "bug", "documentation", "testing", "devops", "research"]

/-- Source: `TaskParser._validate_priority`:
`priority = str(priority).lower().strip()`, returned if allowed, else
`'medium'`. -/
def validate_priority (v : PyVal) : String :=
  let p := pyStrip (pyLower (pyStrOf v))
  if valid_priorities.contains p then p else "medium"

/-- Source: `TaskParser._validate_effort`. -/
def validate_effort (v : PyVal) : String :=
  let e := pyStrip (pyLower (pyStrOf v))
  if valid_efforts.contains e then e else "3-days"

/-- Source: `TaskParser._validate_task_type`. -/
def validate_task_type (v : PyVal) : String :=
  let t := pyStrip (pyLower (pyStrOf v))
  if valid_types.contains t then t else "feature"

/-- Source: `TaskParser._validate_task_labels`: non-lists become `[]`,
elements are `str(...).strip()`-ed and empty results dropped. -/
def validate_task_labels (v : PyVal) : List String :=
  match v with
  | .pyList xs => ((xs.toList.map (fun l => pyStrip (pyStrOf l))).filter (fun s => s != ""))
  | _ => []

/-- Lowercase-hex test for one character (the character class `[0-9a-f]`). -/
def isHexLower (c : Char) : Bool :=
  ('0' ≤ c && c ≤ '9') || ('a' ≤ c && c ≤ 'f')

/-- Python `if color.startswith('#'): color = color[1:]` on a character
list. -/
def dropHash : List Char → List Char
  | [] => []
  | c :: rest => if c = '#' then rest else c :: rest

/-- Source: `TaskParser._validate_color`:
`color = str(color).strip().lower()`, a leading `'#'` is removed, and the
result is kept iff it matches `^[0-9a-f]{6}$`, else `'808080'`. -/
def validate_color (v : PyVal) : String :=
  let c1 := dropHash ((pyStrip (pyStrOf v)).toList.map pyLowerChar)
  if c1.length == 6 && c1.all isHexLower then String.mk c1 else "808080"

/-- Claim C5's color algorithm, phrased exactly as the claim reads: strip
an optional leading `'#'`, lowercase, return the result if it matches
`^[0-9a-f]{6}$`, else `"808080"` — with no whitespace stripping. -/
def color_per_claim (s : String) : String :=
  let t := (dropHash s.toList).map pyLowerChar
  if t.length == 6 && t.all isHexLower then String.mk t else "808080"

/-- The amended color algorithm of claim C5: additionally strip
surrounding whitespace first (as `_validate_color` does). -/
def color_per_amended (s : String) : String :=
  let t := (dropHash (pyStrip s).toList).map pyLowerChar
  if t.length == 6 && t.all isHexLower then String.mk t else "808080"

/-- Word character test for the regex `\w` (ASCII model: alphanumeric or
underscore). -/
def isWordChar (c : Char) : Bool := c.isAlphanum || c == '_'

/-- The characters kept by `re.sub(r'[^\w\s-]', '', ...)`. -/
def isNameKeepChar (c : Char) : Bool := isWordChar c || isPySpace c || c == '-'

/-- Source: `TaskParser._clean_project_name`: falsy names become
`"Untitled Project"`; string names are stripped, characters outside
`[\w\s-]` removed, and the result truncated to 50 characters.  A truthy
non-string name raises `AttributeError` (no `.strip` method), modelled as
`none`. -/
def clean_project_name (v : PyVal) : Option String :=
  if !pyTruthy v then some "Untitled Project"
  else match v with
    | .pyStr s => some (strTake (String.mk ((pyStrip s).toList.filter isNameKeepChar)) 50)
    | _ => none

/-- A task dict as cleaned by `TaskParser._validate_tasks` (the
`cleaned_task` dict literal, fields in source order). -/
structure CleanedTask where
  title : String
  description : String
  phase : String
  priority : String
  effort : String
  labels : List String
  dependencies : PyVal
  type : String
deriving Repr

/-- Source: the `cleaned_task` dict built in `TaskParser._validate_tasks`
for one task dict that passed the title guard. -/
def clean_task (kvs : PyPairs) : CleanedTask :=
  { title := strTake (pyStrip (pyStrOf (pyGet kvs "title" .pyNone))) 100
    description := pyStrip (pyStrOf (pyGet kvs "description" (.pyStr "")))
    phase := pyStrip (pyStrOf (pyGet kvs "phase" (.pyStr "Development")))
    priority := validate_priority (pyGet kvs "priority" (.pyStr "medium"))
    effort := validate_effort (pyGet kvs "effort" (.pyStr "3-days"))
    labels := validate_task_labels (pyGet kvs "labels" (.pyList .nil))
    dependencies := pyGet kvs "dependencies" (.pyList .nil)
    type := validate_task_type (pyGet kvs "type" (.pyStr "feature")) }

/-- Source: `TaskParser._validate_tasks`: non-dict entries and entries
whose `title` is missing or falsy are skipped; the rest are cleaned. -/
def validate_tasks : List PyVal → List CleanedTask
  | [] => []
  | t :: rest =>
    match t with
    | .pyDict kvs =>
      match lookupKey kvs "title" with
      | none => validate_tasks rest
      | some tv =>
        if pyTruthy tv then clean_task kvs :: validate_tasks rest
        else validate_tasks rest
    | _ => validate_tasks rest

/-- A label dict as cleaned by `TaskParser._validate_labels`. -/
structure CleanedLabel where
  name : String
  color : String
  description : String
deriving Repr, DecidableEq

/-- The cleaned label built in `TaskParser._validate_labels` from one
label dict whose stripped name is `name`. -/
def clean_label (kvs : PyPairs) (name : String) : CleanedLabel :=
  { name := name
    color := validate_color (pyGet kvs "color" (.pyStr "808080"))
    description := strTake (pyStrip (pyStrOf (pyGet kvs "description" (.pyStr "")))) 100 }

/-- Source: the main loop of `TaskParser._validate_labels` with its
`seen_names` set (modelled as the list of names added so far): non-dict
entries are skipped, `label.get('name','')` must be a string (anything
else raises `AttributeError` at `.strip()`, modelled as `none`), empty and
already seen names are skipped. -/
def validate_labels_loop : List PyVal → List String → Option (List CleanedLabel)
  | [], _ => some []
  | l :: rest, seen =>
    match l with
    | .pyDict kvs =>
      match pyGet kvs "name" (.pyStr "") with
      | .pyStr raw =>
        let name := pyStrip raw
        if name = "" || seen.contains name then validate_labels_loop rest seen
        else
          (validate_labels_loop rest (name :: seen)).map
            (fun tail => clean_label kvs name :: tail)
      | _ => none
    | _ => validate_labels_loop rest seen

/-- Source: the `essential_labels` literal in
`TaskParser._validate_labels`. -/
def essential_labels : List CleanedLabel :=
  [ { name := "priority:high", color := "ff0000", description := "High priority task" },
    { name := "priority:medium", color := "ffa500", description := "Medium priority task" },
    { name := "priority:low", color := "808080", description := "Low priority task" } ]

/-- Source: `TaskParser._validate_labels`: the dedup loop followed by the
append of the essential labels whose names are not already present. -/
def validate_labels (labels : List PyVal) : Option (List CleanedLabel) :=
  (validate_labels_loop labels []).map (fun valid =>
    let existing := valid.map (fun l => l.name)
    valid ++ essential_labels.filter (fun e => !existing.contains e.name))

/-- Spec-side companion of `validate_labels_loop` for claim C4: the same
cleaning and skipping, but with no deduplication. -/
def clean_eligible : List PyVal → Option (List CleanedLabel)
  | [] => some []
  | l :: rest =>
    match l with
    | .pyDict kvs =>
      match pyGet kvs "name" (.pyStr "") with
      | .pyStr raw =>
        let name := pyStrip raw
        if name = "" then clean_eligible rest
        else (clean_eligible rest).map (fun tail => clean_label kvs name :: tail)
      | _ => none
    | _ => clean_eligible rest

/-- Spec-side deduplication for claim C4: keep a label iff its name was
not seen before (exact, case-sensitive string comparison), first
occurrence wins. -/
def dedup_by_name : List CleanedLabel → List String → List CleanedLabel
  | [], _ => []
  | x :: rest, seen =>
    if seen.contains x.name then dedup_by_name rest seen
    else x :: dedup_by_name rest (x.name :: seen)

/-- Source: `TaskParser._generate_default_phases`. -/
def generate_default_phases : PyVal :=
  .pyList (.ofList
    [ .pyDict (.ofList [("name", .pyStr "Planning"),
        ("description", .pyStr "Project planning and requirements gathering"),
        ("order", .pyInt 1)]),
      .pyDict (.ofList [("name", .pyStr "Development"),
        ("description", .pyStr "Core development and implementation"),
        ("order", .pyInt 2)]),
      .pyDict (.ofList [("name", .pyStr "Testing"),
        ("description", .pyStr "Testing and quality assurance"),
        ("order", .pyInt 3)]),
      .pyDict (.ofList [("name", .pyStr "Deployment"),
        ("description", .pyStr "Deployment and release preparation"),
        ("order", .pyInt 4)]) ])

/-- The cleaned task written back into the data dict (a Python dict with
the eight keys in source order). -/
def CleanedTask.toPy (t : CleanedTask) : PyVal :=
  .pyDict (.ofList
    [ ("title", .pyStr t.title),
      ("description", .pyStr t.description),
      ("phase", .pyStr t.phase),
      ("priority", .pyStr t.priority),
      ("effort", .pyStr t.effort),
      ("labels", .pyList (.ofList (t.labels.map .pyStr))),
      ("dependencies", t.dependencies),
      ("type", .pyStr t.type) ])

/-- The cleaned label written back into the data dict. -/
def CleanedLabel.toPy (l : CleanedLabel) : PyVal :=
  .pyDict (.ofList
    [ ("name", .pyStr l.name),
      ("color", .pyStr l.color),
      ("description", .pyStr l.description) ])

/-- Iterating `data['labels']` and running `_validate_labels` on it:
`none` models either the `TypeError` of iterating a non-iterable or the
`AttributeError` raised inside the loop. -/
def validate_labels_of (v : PyVal) : Option (List CleanedLabel) :=
  (iterAsList v).bind validate_labels

/-- Source: `TaskParser._validate_and_clean_data`: require the fields
`project_name`, `tasks`, `labels` (first missing one raises
`ValueError(f"Missing required field: {field}")`); then clean the name,
the tasks and the labels in that order (each step may raise, modelled as
`.error`); add default phases when `phases` is missing or falsy and a
summary when `project_summary` is missing; return the updated dict. -/
def validate_and_clean_data (data : PyPairs) : Except String PyPairs :=
  if (lookupKey data "project_name").isNone then
    .error "Missing required field: project_name"
  else if (lookupKey data "tasks").isNone then
    .error "Missing required field: tasks"
  else if (lookupKey data "labels").isNone then
    .error "Missing required field: labels"
  else
    match clean_project_name (pyGet data "project_name" .pyNone) with
    | none => .error "AttributeError: project_name has no attribute strip"
    | some nm =>
      match iterAsList (pyGet data "tasks" .pyNone) with
      | none => .error "TypeError: tasks object is not iterable"
      | some taskList =>
        match validate_labels_of (pyGet data "labels" .pyNone) with
        | none => .error "error while validating labels"
        | some lbls =>
          let d1 := setKey data "project_name" (.pyStr nm)
          let d2 := setKey d1 "tasks"
            (.pyList (.ofList ((validate_tasks taskList).map CleanedTask.toPy)))
          let d3 := setKey d2 "labels"
            (.pyList (.ofList (lbls.map CleanedLabel.toPy)))
          let d4 :=
            if (lookupKey d3 "phases").isNone || !pyTruthy (pyGet d3 "phases" .pyNone) then
              setKey d3 "phases" generate_default_phases
            else d3
          let d5 :=
            if (lookupKey d4 "project_summary").isNone then
              setKey d4 "project_summary" (.pyStr ("A software project: " ++ nm))
            else d4
          .ok d5

/-! ## openrouter_client.py -/

/-- The opening delimiter matched by `re.sub(r'◁think▷.*?(?=\{|$)', ...)`. -/
def thinkMark : List Char := "◁think▷".toList

/-- The `<think>` opening tag. -/
def openTag : List Char := "<think>".toList

/-- The `</think>` closing tag. -/
def closeTag : List Char := "</think>".toList

/-- Source: `re.sub(r'◁think▷.*?(?=\{|$)', '', content, flags=re.DOTALL)`
scanned left to right: each occurrence of `◁think▷` is deleted together
with the (lazily matched) characters up to but excluding the next
`'\x7b'`, or up to the end of the string when there is none (the content is
already stripped, so `$` can only match at the very end).  The fuel
argument (initially the length of the list, which always suffices) makes
the recursion structural. -/
def sub_think1_fuel : Nat → List Char → List Char
  | 0, l => l
  | _ + 1, [] => []
  | f + 1, c :: rest =>
    if thinkMark.isPrefixOf (c :: rest) then
      sub_think1_fuel f (((c :: rest).drop thinkMark.length).dropWhile (fun d => d != '\x7b'))
    else
      c :: sub_think1_fuel f rest

/-- The first thinking-tag removal pass of
`OpenRouterClient.extract_structured_data`. -/
def sub_think1 (l : List Char) : List Char := sub_think1_fuel l.length l

/-- Scan for the first occurrence of `</think>` and return the characters
after it, or `none` when there is none. -/
def drop_through_close : List Char → Option (List Char)
  | [] => none
  | c :: rest =>
    if closeTag.isPrefixOf (c :: rest) then some ((c :: rest).drop closeTag.length)
    else drop_through_close rest

/-- Source: `re.sub(r'<think>.*?</think>', '', content, flags=re.DOTALL)`
scanned left to right: a `<think>` with a later `</think>` is deleted
together with everything (lazily) up to and including that first closing
tag; a `<think>` with no closing tag does not match and scanning moves on
by one character.  Fuel as in `sub_think1_fuel`. -/
def sub_think2_fuel : Nat → List Char → List Char
  | 0, l => l
  | _ + 1, [] => []
  | f + 1, c :: rest =>
    if openTag.isPrefixOf (c :: rest) then
      match drop_through_close ((c :: rest).drop openTag.length) with
      | some r => sub_think2_fuel f r
      | none => c :: sub_think2_fuel f rest
    else
      c :: sub_think2_fuel f rest

/-- The second thinking-tag removal pass of
`OpenRouterClient.extract_structured_data`. -/
def sub_think2 (l : List Char) : List Char := sub_think2_fuel l.length l

/-- Source: the markdown code-fence stripping of
`extract_structured_data`: drop a leading ```` ```json ````, then a
leading ```` ``` ````, then a trailing ```` ``` ````, then strip. -/
def strip_fences (l : List Char) : List Char :=
  let l1 := if "```json".toList.isPrefixOf l then l.drop 7 else l
  let l2 := if "```".toList.isPrefixOf l1 then l1.drop 3 else l1
  let l3 := if "```".toList.isSuffixOf l2 then l2.take (l2.length - 3) else l2
  pyStripL l3

/-- The span from the start of `l` through the last `'\x7d'` in `l`, or
`none` when `l` contains no `'\x7d'`. -/
def takeThroughLastRbrace (l : List Char) : Option (List Char) :=
  if (l.reverse.dropWhile (fun c => c != '\x7d')).isEmpty then none
  else some (l.reverse.dropWhile (fun c => c != '\x7d')).reverse

/-- Source: `re.search(r'\{.*\}', content, re.DOTALL)` as the regex
engine runs it: try each position left to right; at a `'\x7b'`, greedily
match through the last `'\x7d'` of the remaining text, otherwise move
on. -/
def search_brace_span : List Char → Option (List Char)
  | [] => none
  | c :: rest =>
    if c == '\x7b' then
      match takeThroughLastRbrace (c :: rest) with
      | some m => some m
      | none => search_brace_span rest
    else search_brace_span rest

/-- Spec-side span finder for claim C6, phrased as in the spec: the
first top-level `\x7b...\x7d` span obtained by greedy brace matching,
i.e. the span from the first `'\x7b'` through the last `'\x7d'` after
it. -/
def spec_brace_span (l : List Char) : Option (List Char) :=
  takeThroughLastRbrace (l.dropWhile (fun c => c != '\x7b'))

/-- Source: the JSON branch of `OpenRouterClient.extract_structured_data`
(lines 160-189): strip, remove both kinds of thinking delimiters, strip
markdown code fences, replace the content by the greedy `\x7b...\x7d` span
when one exists, and JSON-decode the result; a failed decode raises
(modelled as `.error`).  The JSON decoder (`json.loads`) is the
parameter `loads`. -/
def extract_structured_data {J : Type} (loads : String → Option J) (raw : String) :
    Except String J :=
  let c0 := pyStripL raw.toList
  let c1 := sub_think1 c0
  let c2 := sub_think2 c1
  let c3 := strip_fences c2
  let c4 := match search_brace_span c3 with
    | some span => span
    | none => c3
  match loads (String.mk c4) with
  | some j => Except.ok j
  | none => Except.error "Failed to parse AI response as JSON"

/-- Spec-side companion of `extract_structured_data` for claim C6,
phrased as the amended claim reads: after stripping thinking delimiters
and code fences, parse the first greedy brace span when one exists and
the whole cleaned text otherwise, failing exactly when that parse
fails. -/
def extract_spec {J : Type} (loads : String → Option J) (raw : String) :
    Except String J :=
  let cleaned := strip_fences (sub_think2 (sub_think1 (pyStripL raw.toList)))
  let target := match spec_brace_span cleaned with
    | some span => span
    | none => cleaned
  match loads (String.mk target) with
  | some j => Except.ok j
  | none => Except.error "Failed to parse AI response as JSON"

/-- JSON whitespace. -/
def isJsonWs (c : Char) : Bool := c == ' ' || c == '\t' || c == '\n' || c == '\r'

/-- Decimal value of a digit string. -/
def digitsToNat (l : List Char) : Nat :=
  l.foldl (fun acc c => acc * 10 + (c.toNat - 48)) 0

/-- Fragment of Python's `json.loads` (the stdlib decoder used by
`extract_structured_data`), modelled for whitespace-delimited atomic
documents: `null`, `true`, `false` and non-negative integer literals.
It agrees with Python on every input at which it is evaluated below;
all other documents are out of the modelled fragment and rejected. -/
def miniJsonLoads (s : String) : Option PyVal :=
  let t := ((s.toList.dropWhile isJsonWs).reverse.dropWhile isJsonWs).reverse
  if t = "null".toList then some .pyNone
  else if t = "true".toList then some (.pyBool true)
  else if t = "false".toList then some (.pyBool false)
  else if t ≠ [] && t.all (fun c => c.isDigit) && (t = ['0'] || t.head? != some '0') then
    some (.pyInt (Int.ofNat (digitsToNat t)))
  else none

/-! ## project_builder.py -/

/-- Source: `ProjectBuilder.create_labels`: each label is handed to the
repository client's `create_label`; a raised per-label failure (modelled
by the client returning `.error`) is logged and skipped, a success is
appended. -/
def create_labels {A : Type} (client : CleanedLabel → Except String A) :
    List CleanedLabel → List A
  | [] => []
  | l :: rest =>
    match client l with
    | .ok created => created :: create_labels client rest
    | .error _ => create_labels client rest

/-- Source: the emoji table for priorities in
`ProjectBuilder._build_issue_body` (with its `.get(..., '🟡')` default). -/
def priority_emoji (p : String) : String :=
  if p = "high" then "🔴" else if p = "medium" then "🟡"
  else if p = "low" then "⚪" else "🟡"

/-- Source: the emoji table for efforts. -/
def effort_emoji (e : String) : String :=
  if e = "1-day" then "⚡" else if e = "3-days" then "🔨"
  else if e = "1-week" then "📅" else if e = "2-weeks" then "📆" else "🔨"

/-- Source: the emoji table for task types. -/
def type_emoji (t : String) : String :=
  if t = "feature" then "✨" else if t = "bug" then "🐛"
  else if t = "documentation" then "📝" else if t = "testing" then "🧪"
  else if t = "devops" then "⚙️" else if t = "research" then "🔬" else "✨"

/-- Source: `ProjectBuilder._build_issue_body` on a validated task:
description, the Task Details block, an optional Dependencies checklist
(iterating a non-iterable `dependencies` value raises `TypeError` inside
the caller's `try`, modelled as `none`) and the fixed acceptance-criteria
footer, joined with newlines. -/
def build_issue_body (t : CleanedTask) : Option String :=
  let descPart : List String := if t.description != "" then [t.description, ""] else []
  let phasePart : List String := if t.phase != "" then ["**Phase:** " ++ t.phase] else []
  let meta : List String :=
    ["## 📋 Task Details", ""] ++ phasePart ++
    [ "**Priority:** " ++ priority_emoji t.priority ++ " " ++ pyTitle t.priority,
      "**Estimated Effort:** " ++ effort_emoji t.effort ++ " " ++ t.effort,
      "**Type:** " ++ type_emoji t.type ++ " " ++ pyTitle t.type ]
  let tailPart : List String :=
    [ "", "## ✅ Acceptance Criteria", "",
      "- [ ] Task objective is clearly defined",
      "- [ ] Implementation meets requirements",
      "- [ ] Code is properly tested",
      "- [ ] Documentation is updated (if needed)",
      "", "---",
      "*This issue was automatically generated by Universal Project Todo Tracker*" ]
  if pyTruthy t.dependencies then
    (iterAsList t.dependencies).map (fun ds =>
      let depPart := ["", "## 🔗 Dependencies", ""] ++
        ds.map (fun d => "- [ ] " ++ pyStrOf d)
      String.intercalate "\n" (descPart ++ meta ++ depPart ++ tailPart))
  else
    some (String.intercalate "\n" (descPart ++ meta ++ tailPart))

/-- Source: `ProjectBuilder._prepare_issue_labels`: priority and effort
labels, then a phase label when the slug (phase lowercased, spaces
replaced by hyphens) is non-empty, then the type label, then the task's
own labels when that list is truthy. -/
def prepare_issue_labels (t : CleanedTask) : List String :=
  let slug := String.mk ((pyLower t.phase).toList.map (fun c => if c = ' ' then '-' else c))
  ["priority:" ++ t.priority, "effort:" ++ t.effort] ++
    (if slug != "" then ["phase:" ++ slug] else []) ++
    ["type:" ++ t.type] ++
    (if t.labels.isEmpty then [] else t.labels)

/-- A created issue: whatever the repository client returned for the
issue (`I`), updated with the echoed task metadata
(`issue.update({...})` in `ProjectBuilder.create_issues`). -/
structure CreatedIssue (I : Type) where
  issue : I
  priority : String
  effort : String
  phase : String
  task_type : String

/-- Source: `ProjectBuilder.create_issues` on validated tasks: for each
task the body is rendered and the labels prepared, the client's
`create_issue(title, body, labels)` is called, and the metadata is
attached; any failure inside the per-task `try` (a raising client call,
or the `TypeError` of iterating a non-iterable `dependencies` while
rendering the body) is logged and the task skipped. -/
def create_issues {I : Type} (client : String → String → List String → Except String I) :
    List CleanedTask → List (CreatedIssue I)
  | [] => []
  | t :: rest =>
    match build_issue_body t with
    | none => create_issues client rest
    | some body =>
      match client t.title body (prepare_issue_labels t) with
      | .ok i =>
          { issue := i, priority := t.priority, effort := t.effort,
            phase := t.phase, task_type := t.type } :: create_issues client rest
      | .error _ => create_issues client rest

/-! ## Supporting lemmas -/

theorem strTake_length_le (s : String) (n : Nat) : (strTake s n).length ≤ n := by
  have h : (strTake s n).length = (s.toList.take n).length := rfl
  rw [h, List.length_take]
  omega

theorem validate_priority_mem (v : PyVal) : validate_priority v ∈ valid_priorities := by
  show (if valid_priorities.contains (pyStrip (pyLower (pyStrOf v))) then
      pyStrip (pyLower (pyStrOf v)) else "medium") ∈ valid_priorities
  split
  · next h => simpa using h
  · simp [valid_priorities]

theorem validate_effort_mem (v : PyVal) : validate_effort v ∈ valid_efforts := by
  show (if valid_efforts.contains (pyStrip (pyLower (pyStrOf v))) then
      pyStrip (pyLower (pyStrOf v)) else "3-days") ∈ valid_efforts
  split
  · next h => simpa using h
  · simp [valid_efforts]

theorem validate_task_type_mem (v : PyVal) : validate_task_type v ∈ valid_types := by
  show (if valid_types.contains (pyStrip (pyLower (pyStrOf v))) then
      pyStrip (pyLower (pyStrOf v)) else "feature") ∈ valid_types
  split
  · next h => simpa using h
  · simp [valid_types]

/-! ## Claims -/

/-- C1: every task produced by `_validate_tasks` has a title that is the
stripped input title truncated to at most 100 characters, a priority from
the fixed priority set (defaulting to `"medium"` when the supplied value,
lowercased and stripped, is not in it), an effort from the fixed effort
set (defaulting to `"3-days"`), and a type from the fixed type set
(defaulting to `"feature"`), regardless of the supplied values. -/
theorem C1_validate_tasks_fields (tasks : List PyVal) (ct : CleanedTask)
    (h : ct ∈ validate_tasks tasks) :
    ct.title.length ≤ 100 ∧
    ct.priority ∈ valid_priorities ∧
    ct.effort ∈ valid_efforts ∧
    ct.type ∈ valid_types ∧
    ∃ kvs : PyPairs, PyVal.pyDict kvs ∈ tasks ∧
      pyTruthy (pyGet kvs "title" .pyNone) = true ∧
      ct.title = strTake (pyStrip (pyStrOf (pyGet kvs "title" .pyNone))) 100 ∧
      ct.priority =
        (if valid_priorities.contains
            (pyStrip (pyLower (pyStrOf (pyGet kvs "priority" (.pyStr "medium"))))) then
          pyStrip (pyLower (pyStrOf (pyGet kvs "priority" (.pyStr "medium"))))
        else "medium") ∧
      ct.effort =
        (if valid_efforts.contains
            (pyStrip (pyLower (pyStrOf (pyGet kvs "effort" (.pyStr "3-days"))))) then
          pyStrip (pyLower (pyStrOf (pyGet kvs "effort" (.pyStr "3-days"))))
        else "3-days") ∧
      ct.type =
        (if valid_types.contains
            (pyStrip (pyLower (pyStrOf (pyGet kvs "type" (.pyStr "feature"))))) then
          pyStrip (pyLower (pyStrOf (pyGet kvs "type" (.pyStr "feature"))))
        else "feature") := by
  induction tasks with
  | nil => cases h
  | cons t rest ih =>
    have lift : (∃ kvs : PyPairs, PyVal.pyDict kvs ∈ rest ∧
        pyTruthy (pyGet kvs "title" .pyNone) = true ∧
        ct.title = strTake (pyStrip (pyStrOf (pyGet kvs "title" .pyNone))) 100 ∧
        ct.priority =
          (if valid_priorities.contains
              (pyStrip (pyLower (pyStrOf (pyGet kvs "priority" (.pyStr "medium"))))) then
            pyStrip (pyLower (pyStrOf (pyGet kvs "priority" (.pyStr "medium"))))
          else "medium") ∧
        ct.effort =
          (if valid_efforts.contains
              (pyStrip (pyLower (pyStrOf (pyGet kvs "effort" (.pyStr "3-days"))))) then
            pyStrip (pyLower (pyStrOf (pyGet kvs "effort" (.pyStr "3-days"))))
          else "3-days") ∧
        ct.type =
          (if valid_types.contains
              (pyStrip (pyLower (pyStrOf (pyGet kvs "type" (.pyStr "feature"))))) then
            pyStrip (pyLower (pyStrOf (pyGet kvs "type" (.pyStr "feature"))))
          else "feature")) →
        (∃ kvs : PyPairs, PyVal.pyDict kvs ∈ t :: rest ∧
        pyTruthy (pyGet kvs "title" .pyNone) = true ∧
        ct.title = strTake (pyStrip (pyStrOf (pyGet kvs "title" .pyNone))) 100 ∧
        ct.priority =
          (if valid_priorities.contains
              (pyStrip (pyLower (pyStrOf (pyGet kvs "priority" (.pyStr "medium"))))) then
            pyStrip (pyLower (pyStrOf (pyGet kvs "priority" (.pyStr "medium"))))
          else "medium") ∧
        ct.effort =
          (if valid_efforts.contains
              (pyStrip (pyLower (pyStrOf (pyGet kvs "effort" (.pyStr "3-days"))))) then
            pyStrip (pyLower (pyStrOf (pyGet kvs "effort" (.pyStr "3-days"))))
          else "3-days") ∧
        ct.type =
          (if valid_types.contains
              (pyStrip (pyLower (pyStrOf (pyGet kvs "type" (.pyStr "feature"))))) then
            pyStrip (pyLower (pyStrOf (pyGet kvs "type" (.pyStr "feature"))))
          else "feature")) := by
      rintro ⟨kvs, hmem, hrest⟩
      exact ⟨kvs, List.mem_cons_of_mem _ hmem, hrest⟩
    cases t with
    | pyDict kvs =>
      rcases hlu : lookupKey kvs "title" with _ | tv
      · have h' : ct ∈ validate_tasks rest := by
          simpa [validate_tasks, hlu] using h
        obtain ⟨h1, h2, h3, h4, h5⟩ := ih h'
        exact ⟨h1, h2, h3, h4, lift h5⟩
      · by_cases htv : pyTruthy tv = true
        · have h' : ct ∈ clean_task kvs :: validate_tasks rest := by
            simpa [validate_tasks, hlu, htv] using h
          rcases List.mem_cons.mp h' with hhd | htl
          · subst hhd
            refine ⟨strTake_length_le _ _, validate_priority_mem _,
              validate_effort_mem _, validate_task_type_mem _, kvs,
              List.mem_cons_self _ _, ?_, rfl, rfl, rfl, rfl⟩
            simp [pyGet, hlu, htv]
          · obtain ⟨h1, h2, h3, h4, h5⟩ := ih htl
            exact ⟨h1, h2, h3, h4, lift h5⟩
        · have h' : ct ∈ validate_tasks rest := by
            simpa [validate_tasks, hlu, htv] using h
          obtain ⟨h1, h2, h3, h4, h5⟩ := ih h'
          exact ⟨h1, h2, h3, h4, lift h5⟩
    | pyNone =>
      obtain ⟨h1, h2, h3, h4, h5⟩ := ih h
      exact ⟨h1, h2, h3, h4, lift h5⟩
    | pyBool b =>
      obtain ⟨h1, h2, h3, h4, h5⟩ := ih h
      exact ⟨h1, h2, h3, h4, lift h5⟩
    | pyInt n =>
      obtain ⟨h1, h2, h3, h4, h5⟩ := ih h
      exact ⟨h1, h2, h3, h4, lift h5⟩
    | pyStr s =>
      obtain ⟨h1, h2, h3, h4, h5⟩ := ih h
      exact ⟨h1, h2, h3, h4, lift h5⟩
    | pyList xs =>
      obtain ⟨h1, h2, h3, h4, h5⟩ := ih h
      exact ⟨h1, h2, h3, h4, lift h5⟩

/-- Witness for C1: a concrete task list with a padded title, an
uppercase padded priority, an invalid effort and an uppercase type. -/
theorem C1_witness :
    (clean_task (PyPairs.ofList [("title", PyVal.pyStr "  Fix login bug!  "),
      ("priority", PyVal.pyStr " HIGH"), ("effort", PyVal.pyStr "someday"),
      ("type", PyVal.pyStr "BUG")])).title = "Fix login bug!" ∧
    (clean_task (PyPairs.ofList [("title", PyVal.pyStr "  Fix login bug!  "),
      ("priority", PyVal.pyStr " HIGH"), ("effort", PyVal.pyStr "someday"),
      ("type", PyVal.pyStr "BUG")])).priority ∈ valid_priorities ∧
    (clean_task (PyPairs.ofList [("title", PyVal.pyStr "  Fix login bug!  "),
      ("priority", PyVal.pyStr " HIGH"), ("effort", PyVal.pyStr "someday"),
      ("type", PyVal.pyStr "BUG")])).effort ∈ valid_efforts ∧
    (clean_task (PyPairs.ofList [("title", PyVal.pyStr "  Fix login bug!  "),
      ("priority", PyVal.pyStr " HIGH"), ("effort", PyVal.pyStr "someday"),
      ("type", PyVal.pyStr "BUG")])).type ∈ valid_types ∧
    (clean_task (PyPairs.ofList [("title", PyVal.pyStr "  Fix login bug!  "),
      ("priority", PyVal.pyStr " HIGH"), ("effort", PyVal.pyStr "someday"),
      ("type", PyVal.pyStr "BUG")])).title.length ≤ 100 := by
  have h := C1_validate_tasks_fields
    [PyVal.pyDict (PyPairs.ofList [("title", PyVal.pyStr "  Fix login bug!  "),
      ("priority", PyVal.pyStr " HIGH"), ("effort", PyVal.pyStr "someday"),
      ("type", PyVal.pyStr "BUG")])]
    (clean_task (PyPairs.ofList [("title", PyVal.pyStr "  Fix login bug!  "),
      ("priority", PyVal.pyStr " HIGH"), ("effort", PyVal.pyStr "someday"),
      ("type", PyVal.pyStr "BUG")]))
    (List.Mem.head _)
  exact ⟨rfl, h.2.1, h.2.2.1, h.2.2.2.1, h.1⟩

/-- Counterexample to C2 as stated: the task list `[dict()]` (one task
with no `title`) comes out of `_validate_tasks` empty, so the output
length is not the input length — a task can be rejected. -/
theorem C2_counterexample :
    (validate_tasks [PyVal.pyDict .nil]).length = 0 ∧
    ¬ (validate_tasks [PyVal.pyDict .nil]).length
        = ([PyVal.pyDict .nil] : List PyVal).length := by
  exact ⟨rfl, by decide⟩

/-- C2 amended: `_validate_tasks` keeps exactly the entries that are
dicts with a present and truthy `title`, in input order, each cleaned by
field coercion; no task is ever dropped because of an invalid or missing
value of any other field (the keep/drop decision inspects nothing but
dict-ness and the title). -/
theorem C2_validate_tasks_filter (tasks : List PyVal) :
    validate_tasks tasks = tasks.filterMap (fun v =>
      match v with
      | .pyDict kvs =>
        match lookupKey kvs "title" with
        | some tv => if pyTruthy tv then some (clean_task kvs) else none
        | none => none
      | _ => none) := by
  induction tasks with
  | nil => rfl
  | cons t rest ih =>
    cases t with
    | pyDict kvs =>
      rcases hlu : lookupKey kvs "title" with _ | tv
      · simp [validate_tasks, List.filterMap_cons, hlu, ih]
      · by_cases htv : pyTruthy tv = true
        · simp [validate_tasks, List.filterMap_cons, hlu, htv, ih]
        · simp [validate_tasks, List.filterMap_cons, hlu, htv, ih]
    | pyNone => simp [validate_tasks, List.filterMap_cons, ih]
    | pyBool b => simp [validate_tasks, List.filterMap_cons, ih]
    | pyInt n => simp [validate_tasks, List.filterMap_cons, ih]
    | pyStr s => simp [validate_tasks, List.filterMap_cons, ih]
    | pyList xs => simp [validate_tasks, List.filterMap_cons, ih]

/-- The `seen_names` loop of `_validate_labels` computes exactly the
first-occurrence deduplication (by exact string equality of the stripped
names) of the cleaned eligible labels. -/
theorem validate_labels_loop_eq (labels : List PyVal) (seen : List String) :
    validate_labels_loop labels seen
      = (clean_eligible labels).map (fun all => dedup_by_name all seen) := by
  induction labels generalizing seen with
  | nil => rfl
  | cons l rest ih =>
    cases l with
    | pyDict kvs =>
      rcases hname : pyGet kvs "name" (.pyStr "") with _ | b | n | raw | xs | kvs2
      case pyStr =>
        by_cases h0 : pyStrip raw = ""
        · simp [validate_labels_loop, clean_eligible, hname, h0, ih]
        · by_cases hseen : pyStrip raw ∈ seen
          · rw [show validate_labels_loop (PyVal.pyDict kvs :: rest) seen
                = validate_labels_loop rest seen by
                  simp [validate_labels_loop, hname, h0, hseen]]
            rw [ih]
            rcases hce : clean_eligible rest with _ | all
            · simp [clean_eligible, hname, h0, hce]
            · simp [clean_eligible, hname, h0, hce, dedup_by_name, clean_label, hseen]
          · rw [show validate_labels_loop (PyVal.pyDict kvs :: rest) seen
                = (validate_labels_loop rest (pyStrip raw :: seen)).map
                    (fun tail => clean_label kvs (pyStrip raw) :: tail) by
                  simp [validate_labels_loop, hname, h0, hseen]]
            rw [ih]
            rcases hce : clean_eligible rest with _ | all
            · simp [clean_eligible, hname, h0, hce]
            · simp [clean_eligible, hname, h0, hce, dedup_by_name, clean_label, hseen]
      all_goals simp [validate_labels_loop, clean_eligible, hname, ih]
    | pyNone => simp [validate_labels_loop, clean_eligible, ih]
    | pyBool b => simp [validate_labels_loop, clean_eligible, ih]
    | pyInt n => simp [validate_labels_loop, clean_eligible, ih]
    | pyStr s => simp [validate_labels_loop, clean_eligible, ih]
    | pyList xs => simp [validate_labels_loop, clean_eligible, ih]

/-- C3: for every input label list, the output of `_validate_labels`
contains labels named `priority:high`, `priority:medium` and
`priority:low`; on the empty input the output is exactly these three
labels with colors `ff0000`, `ffa500` and `808080`. -/
theorem C3_essential_labels_present :
    (∀ (labels : List PyVal) (out : List CleanedLabel),
      validate_labels labels = some out →
        "priority:high" ∈ out.map CleanedLabel.name ∧
        "priority:medium" ∈ out.map CleanedLabel.name ∧
        "priority:low" ∈ out.map CleanedLabel.name) ∧
    validate_labels [] = some
      [ { name := "priority:high", color := "ff0000", description := "High priority task" },
        { name := "priority:medium", color := "ffa500", description := "Medium priority task" },
        { name := "priority:low", color := "808080", description := "Low priority task" } ] := by
  constructor
  · intro labels out h
    unfold validate_labels at h
    rcases hl : validate_labels_loop labels [] with _ | valid
    · rw [hl] at h; cases h
    · rw [hl] at h
      simp only [Option.map_some', Option.some.injEq] at h
      have key : ∀ e ∈ essential_labels, e.name ∈ out.map CleanedLabel.name := by
        intro e he
        rw [← h]
        by_cases hc : e.name ∈ valid.map CleanedLabel.name
        · simp only [List.map_append, List.mem_append]
          exact Or.inl hc
        · have hf : e ∈ essential_labels.filter
              (fun e => !(valid.map (fun l => l.name)).contains e.name) := by
            refine List.mem_filter.mpr ⟨he, ?_⟩
            simpa using hc
          simp only [List.map_append, List.mem_append]
          exact Or.inr (List.mem_map_of_mem _ hf)
      refine ⟨?_, ?_, ?_⟩
      · exact key ⟨"priority:high", "ff0000", "High priority task"⟩
          (by simp [essential_labels])
      · exact key ⟨"priority:medium", "ffa500", "Medium priority task"⟩
          (by simp [essential_labels])
      · exact key ⟨"priority:low", "808080", "Low priority task"⟩
          (by simp [essential_labels])
  · rfl

/-- Witness for C3: the empty label list, whose output is exactly the
three essential labels. -/
theorem C3_witness :
    "priority:high" ∈ essential_labels.map CleanedLabel.name ∧
    "priority:medium" ∈ essential_labels.map CleanedLabel.name ∧
    "priority:low" ∈ essential_labels.map CleanedLabel.name :=
  C3_essential_labels_present.1 [] essential_labels rfl

/-- C4: the dedup loop of `_validate_labels` keeps exactly the first
occurrence of each (stripped) name, by case-sensitive exact string
comparison; on `[dict(name='a'), dict(name='a'), dict(name='b')]` it
yields the first `a` followed by `b` (before essential-label addition),
and names differing only in case are both kept. -/
theorem C4_labels_dedup_first_occurrence :
    (∀ labels : List PyVal, validate_labels_loop labels []
        = (clean_eligible labels).map (fun all => dedup_by_name all [])) ∧
    validate_labels_loop
      [PyVal.pyDict (.ofList [("name", PyVal.pyStr "a")]),
       PyVal.pyDict (.ofList [("name", PyVal.pyStr "a")]),
       PyVal.pyDict (.ofList [("name", PyVal.pyStr "b")])] []
      = some [ { name := "a", color := "808080", description := "" },
               { name := "b", color := "808080", description := "" } ] ∧
    validate_labels_loop
      [PyVal.pyDict (.ofList [("name", PyVal.pyStr "A")]),
       PyVal.pyDict (.ofList [("name", PyVal.pyStr "a")])] []
      = some [ { name := "A", color := "808080", description := "" },
               { name := "a", color := "808080", description := "" } ] :=
  ⟨fun labels => validate_labels_loop_eq labels [], rfl, rfl⟩

theorem pyLowerChar_eq_hash {c : Char} (h : pyLowerChar c = '#') : c = '#' := by
  unfold pyLowerChar at h
  split at h <;> first | exact h | exact absurd h (by decide)

theorem dropHash_map_lower (l : List Char) :
    dropHash (l.map pyLowerChar) = (dropHash l).map pyLowerChar := by
  cases l with
  | nil => rfl
  | cons c r =>
    by_cases hc : c = '#'
    · subst hc
      have h27 : pyLowerChar '#' = '#' := rfl
      simp [dropHash, h27]
    · have hlc : ¬ pyLowerChar c = '#' := fun h => hc (pyLowerChar_eq_hash h)
      simp [dropHash, hc, hlc]

/-- Counterexample to C5 as stated: `_validate_color` also strips
surrounding whitespace before checking, which the claimed algorithm does
not; on input `" ff0000"` the code returns `"ff0000"` while the claimed
algorithm returns `"808080"`. -/
theorem C5_counterexample :
    validate_color (PyVal.pyStr " ff0000") = "ff0000" ∧
    color_per_claim " ff0000" = "808080" ∧
    validate_color (PyVal.pyStr " ff0000") ≠ color_per_claim " ff0000" :=
  ⟨rfl, rfl, by decide⟩

/-- C5 amended: `_validate_color` strips surrounding whitespace and an
optional leading `'#'`, lowercases, and returns the result iff it
matches `^[0-9a-f]{6}$`, else `"808080"`; in particular `"#ZZZZZZ"`
yields `"808080"` and `"FF0000"` yields `"ff0000"`. -/
theorem C5_color_amended (s : String) :
    validate_color (PyVal.pyStr s) = color_per_amended s ∧
    validate_color (PyVal.pyStr "#ZZZZZZ") = "808080" ∧
    validate_color (PyVal.pyStr "FF0000") = "ff0000" := by
  refine ⟨?_, rfl, rfl⟩
  simp only [validate_color, color_per_amended, pyStrOf]
  rw [dropHash_map_lower]

theorem takeThrough_none_iff (l : List Char) :
    takeThroughLastRbrace l = none ↔ ∀ c ∈ l, c ≠ '\x7d' := by
  unfold takeThroughLastRbrace
  split
  · next h =>
      constructor
      · intro _ c hc
        have h' := List.dropWhile_eq_nil_iff.mp (List.isEmpty_iff.mp h)
        have hx := h' c (List.mem_reverse.mpr hc)
        simpa using hx
      · intro _; rfl
  · next h =>
      constructor
      · intro hcontra; cases hcontra
      · intro hall
        exfalso
        apply h
        rw [List.isEmpty_iff, List.dropWhile_eq_nil_iff]
        intro x hx
        simpa using hall x (List.mem_reverse.mp hx)

theorem search_brace_span_none (l : List Char) (h : ∀ c ∈ l, c ≠ '\x7d') :
    search_brace_span l = none := by
  induction l with
  | nil => rfl
  | cons c rest ih =>
    have hrest : ∀ x ∈ rest, x ≠ '\x7d' := fun x hx => h x (List.mem_cons_of_mem _ hx)
    by_cases hc : c = '\x7b'
    · subst hc
      have ht : takeThroughLastRbrace ('\x7b' :: rest) = none :=
        (takeThrough_none_iff _).mpr h
      simp [search_brace_span, ht, ih hrest]
    · simp [search_brace_span, hc, ih hrest]

/-- The scanning regex engine run of `re.search(r'\{.*\}', ...)` finds
exactly the span from the first `'\x7b'` through the last `'\x7d'` (when one
exists after it). -/
theorem search_brace_span_eq_spec (l : List Char) :
    search_brace_span l = spec_brace_span l := by
  induction l with
  | nil => rfl
  | cons c rest ih =>
    by_cases hc : c = '\x7b'
    · subst hc
      rcases ht : takeThroughLastRbrace ('\x7b' :: rest) with _ | m
      · have hall := (takeThrough_none_iff _).mp ht
        have hrest : ∀ x ∈ rest, x ≠ '\x7d' :=
          fun x hx => hall x (List.mem_cons_of_mem _ hx)
        simp [search_brace_span, spec_brace_span, ht,
          search_brace_span_none rest hrest]
      · simp [search_brace_span, spec_brace_span, ht]
    · simp [search_brace_span, spec_brace_span, hc, ih]

/-- Counterexample to C6 as stated: the raw response `"null"` contains no
JSON object — not even a `'\x7b'` — yet `extract_structured_data` does not
fail: with no brace span it JSON-decodes the whole cleaned text, and
`json.loads("null")` succeeds (returning `None`), so the result is a
successful `None` rather than a `ResponseFormatError`. -/
theorem C6_counterexample :
    extract_structured_data miniJsonLoads "null" = Except.ok PyVal.pyNone ∧
    "null".toList.all (fun c => c != '\x7b') = true :=
  ⟨rfl, rfl⟩

/-- C6 amended: `extract_structured_data` strips thinking delimiters and
markdown code-fence markers, locates the first top-level brace span via
greedy brace matching (first `'\x7b'` through last `'\x7d'`), and JSON-parses
that span when it exists — otherwise it JSON-parses the whole cleaned
text (which may succeed on a non-object JSON document); it fails with an
error exactly when that parse fails. -/
theorem C6_extract_amended {J : Type} (loads : String → Option J) (raw : String) :
    extract_structured_data loads raw = extract_spec loads raw := by
  simp only [extract_structured_data, extract_spec, search_brace_span_eq_spec]

/-- Counterexample to C7 as stated: in the decoded structure
`\x7b"project_name": 1, "tasks": [], "labels": []\x7d` all three required
fields are present, yet validation raises (`1` is truthy and has no
`.strip`, an `AttributeError`) instead of returning a ProjectPlan. -/
theorem C7_counterexample :
    (lookupKey (PyPairs.ofList [("project_name", PyVal.pyInt 1),
      ("tasks", PyVal.pyList .nil), ("labels", PyVal.pyList .nil)])
      "project_name").isSome = true ∧
    (lookupKey (PyPairs.ofList [("project_name", PyVal.pyInt 1),
      ("tasks", PyVal.pyList .nil), ("labels", PyVal.pyList .nil)])
      "tasks").isSome = true ∧
    (lookupKey (PyPairs.ofList [("project_name", PyVal.pyInt 1),
      ("tasks", PyVal.pyList .nil), ("labels", PyVal.pyList .nil)])
      "labels").isSome = true ∧
    validate_and_clean_data (PyPairs.ofList [("project_name", PyVal.pyInt 1),
      ("tasks", PyVal.pyList .nil), ("labels", PyVal.pyList .nil)])
      = Except.error "AttributeError: project_name has no attribute strip" :=
  ⟨rfl, rfl, rfl, rfl⟩

/-- C7 amended: `_validate_and_clean_data` raises
`ValueError("Missing required field: ...")` (surfaced as `ParseError` by
`parse_project`) for the first of `project_name`, `tasks`, `labels` that
is absent; when all three are present and well-typed (the name falsy or a
string, the tasks value iterable, the labels value iterable with every
label name a string), it returns a ProjectPlan without raising.  A
present but ill-typed field can instead raise a
`TypeError`/`AttributeError`. -/
theorem C7_required_fields (data : PyPairs) :
    ((lookupKey data "project_name").isNone = true →
      validate_and_clean_data data = .error "Missing required field: project_name") ∧
    ((lookupKey data "project_name").isSome = true →
      (lookupKey data "tasks").isNone = true →
      validate_and_clean_data data = .error "Missing required field: tasks") ∧
    ((lookupKey data "project_name").isSome = true →
      (lookupKey data "tasks").isSome = true →
      (lookupKey data "labels").isNone = true →
      validate_and_clean_data data = .error "Missing required field: labels") ∧
    ((lookupKey data "project_name").isSome = true →
      (lookupKey data "tasks").isSome = true →
      (lookupKey data "labels").isSome = true →
      (clean_project_name (pyGet data "project_name" .pyNone)).isSome = true →
      (iterAsList (pyGet data "tasks" .pyNone)).isSome = true →
      (validate_labels_of (pyGet data "labels" .pyNone)).isSome = true →
      ∃ out, validate_and_clean_data data = .ok out) := by
  refine ⟨?_, ?_, ?_, ?_⟩
  · intro h
    simp [validate_and_clean_data, h]
  · intro h1 h2
    obtain ⟨v1, hv1⟩ := Option.isSome_iff_exists.mp h1
    simp [validate_and_clean_data, hv1, h2]
  · intro h1 h2 h3
    obtain ⟨v1, hv1⟩ := Option.isSome_iff_exists.mp h1
    obtain ⟨v2, hv2⟩ := Option.isSome_iff_exists.mp h2
    simp [validate_and_clean_data, hv1, hv2, h3]
  · intro h1 h2 h3 h4 h5 h6
    obtain ⟨v1, hv1⟩ := Option.isSome_iff_exists.mp h1
    obtain ⟨v2, hv2⟩ := Option.isSome_iff_exists.mp h2
    obtain ⟨v3, hv3⟩ := Option.isSome_iff_exists.mp h3
    obtain ⟨nm, hnm⟩ := Option.isSome_iff_exists.mp h4
    obtain ⟨tl, htl⟩ := Option.isSome_iff_exists.mp h5
    obtain ⟨lb, hlb⟩ := Option.isSome_iff_exists.mp h6
    simp only [validate_and_clean_data, hv1, hv2, hv3, hnm, htl, hlb,
      Option.isNone_some, Bool.false_eq_true, if_false, Except.ok.injEq]
    exact ⟨_, rfl⟩

/-- Witness for C7: a well-formed decoded structure with all three
required fields, on which validation succeeds. -/
theorem C7_witness :
    ∃ out, validate_and_clean_data (PyPairs.ofList
      [("project_name", PyVal.pyStr "My App"), ("tasks", PyVal.pyList .nil),
       ("labels", PyVal.pyList .nil)]) = .ok out :=
  (C7_required_fields (PyPairs.ofList
      [("project_name", PyVal.pyStr "My App"), ("tasks", PyVal.pyList .nil),
       ("labels", PyVal.pyList .nil)])).2.2.2 rfl rfl rfl rfl rfl rfl

/-- C8: for every behaviour of the per-item creation call (a function
returning success or failure), `create_labels` and `create_issues` are
total (never raise), return exactly the successfully created items in
input order, and a single item's failure does not abort the remaining
items: each equals a `filterMap` of the per-item outcome over the input
list. -/
theorem C8_partial_failure_filterMap {A I : Type}
    (clientL : CleanedLabel → Except String A)
    (clientI : String → String → List String → Except String I)
    (labels : List CleanedLabel) (tasks : List CleanedTask) :
    create_labels clientL labels
      = labels.filterMap (fun l => (clientL l).toOption) ∧
    create_issues clientI tasks
      = tasks.filterMap (fun t => (build_issue_body t).bind (fun body =>
          (clientI t.title body (prepare_issue_labels t)).toOption.map
            (fun i => ⟨i, t.priority, t.effort, t.phase, t.type⟩))) := by
  constructor
  · induction labels with
    | nil => rfl
    | cons l rest ih =>
      rcases hc : clientL l with e | a
      · simp [create_labels, hc, List.filterMap_cons, ih, Except.toOption]
      · simp [create_labels, hc, List.filterMap_cons, ih, Except.toOption]
  · induction tasks with
    | nil => rfl
    | cons t rest ih =>
      rcases hb : build_issue_body t with _ | body
      · simp [create_issues, hb, List.filterMap_cons, ih]
      · rcases hc : clientI t.title body (prepare_issue_labels t) with e | i
        · simp [create_issues, hb, hc, List.filterMap_cons, ih, Except.toOption]
        · simp [create_issues, hb, hc, List.filterMap_cons, ih, Except.toOption]

/-- C9: the label set prepared for a validated task's issue consists of
`priority:<priority>`, `effort:<effort>`, `type:<type>`, an optional
`phase:<slug>` (slug = the phase lowercased with spaces replaced by
hyphens, omitted exactly when the slug is empty), plus the task's own
labels — stated as a permutation since the claim describes a set. -/
theorem C9_prepare_issue_labels_set (t : CleanedTask) :
    List.Perm (prepare_issue_labels t)
      (let slug := String.mk
        ((pyLower t.phase).toList.map (fun c => if c = ' ' then '-' else c))
       (["priority:" ++ t.priority, "effort:" ++ t.effort, "type:" ++ t.type] ++
        (if slug = "" then [] else ["phase:" ++ slug]) ++ t.labels)) := by
  have key : ∀ (slug p e ty : String) (labels : List String),
      List.Perm ([p, e] ++ (if slug != "" then ["phase:" ++ slug] else []) ++
          [ty] ++ (if labels.isEmpty then [] else labels))
        ([p, e, ty] ++ (if slug = "" then [] else ["phase:" ++ slug]) ++ labels) := by
    intro slug p e ty labels
    have hlb : (if labels.isEmpty then [] else labels) = labels := by
      cases labels <;> simp
    rw [hlb]
    by_cases hs : slug = ""
    · rw [if_neg (by simp [hs] : ¬ (slug != "") = true), if_pos hs]
      simp
    · rw [if_pos (by simp [hs] : (slug != "") = true), if_neg hs]
      simp only [List.cons_append, List.nil_append]
      exact List.Perm.cons _ (List.Perm.cons _
        (List.Perm.swap ty ("phase:" ++ slug) labels))
  exact key
    (String.mk ((pyLower t.phase).toList.map (fun c => if c = ' ' then '-' else c)))
    ("priority:" ++ t.priority) ("effort:" ++ t.effort) ("type:" ++ t.type) t.labels

/-- C10: `_clean_project_name` returns a string of at most 50 characters
in which every character outside `[\w\s-]` has been removed from the
stripped input; a falsy (empty or missing) name yields the fixed
fallback `"Untitled Project"`. -/
theorem C10_clean_project_name_shape (v : PyVal) (r : String)
    (h : clean_project_name v = some r) :
    r.length ≤ 50 ∧
    (pyTruthy v = false → r = "Untitled Project") ∧
    (∀ s : String, v = PyVal.pyStr s → pyTruthy v = true →
      r = strTake (String.mk ((pyStrip s).toList.filter isNameKeepChar)) 50) := by
  by_cases htr : pyTruthy v = true
  · cases v with
    | pyStr s =>
      have hr : r = strTake (String.mk ((pyStrip s).toList.filter isNameKeepChar)) 50 := by
        have h' := h
        simp [clean_project_name, htr] at h'
        exact h'.symm
      refine ⟨?_, ?_, ?_⟩
      · rw [hr]; exact strTake_length_le _ _
      · intro hf; rw [htr] at hf; cases hf
      · intro s' hs' _
        cases hs'
        exact hr
    | pyNone => simp [clean_project_name, htr] at h
    | pyBool b => simp [clean_project_name, htr] at h
    | pyInt n => simp [clean_project_name, htr] at h
    | pyList xs => simp [clean_project_name, htr] at h
    | pyDict kvs => simp [clean_project_name, htr] at h
  · have hf : pyTruthy v = false := by simpa using htr
    have hr : r = "Untitled Project" := by
      simp [clean_project_name, hf] at h
      exact h.symm
    refine ⟨?_, fun _ => hr, ?_⟩
    · rw [hr]; decide
    · intro s hs htr2
      rw [htr2] at hf
      cases hf

/-- Witness for C10: the padded name `"  My App!!  "` is stripped, the
exclamation marks removed, and the result kept under 50 characters. -/
theorem C10_witness :
    ("My App" : String).length ≤ 50 ∧
    (pyTruthy (PyVal.pyStr "  My App!!  ") = false → "My App" = "Untitled Project") ∧
    (∀ s : String, PyVal.pyStr "  My App!!  " = PyVal.pyStr s →
      pyTruthy (PyVal.pyStr "  My App!!  ") = true →
      ("My App" : String)
        = strTake (String.mk ((pyStrip s).toList.filter isNameKeepChar)) 50) :=
  C10_clean_project_name_shape (PyVal.pyStr "  My App!!  ") "My App" rfl
